import Mathlib

/-
Verification of the bilingual prompt store `BasePromptConfig`
(hugegraph-llm, src/hugegraph_llm/config/models/base_prompt_config.py).

The Python object keeps its per-key prompt values as dynamically named
instance attributes (`<key>_en` / `<key>_zh`) in the instance dictionary,
plus a `language` attribute.  We embed the instance dictionary as an
ordered association list from attribute name to string value, and the
`language` attribute as a separate field (it is assigned first in
`__init__` and is always present).  An attribute being absent from the
association list models the attribute being absent from the Python
object (e.g. deleted, or never created because construction was stubbed).

File system effects are made explicit: the backing YAML file is a value
of type `Option YamlData` (`none` = the file does not exist; `some d` =
the file exists and parses to the mapping `d`, with `some []` covering
both an empty file, where `yaml.safe_load` yields `None`, and an empty
mapping — both falsy in the `if data:` test).  The YAML layer itself is
abstracted as the identity on string-to-string mappings, which models
`yaml.dump(..., allow_unicode=True)` / `yaml.safe_load` round-tripping
Unicode text losslessly.  Log output is an explicit list of events, and
the one `input()` call is modelled by passing the operator answer as an
argument together with a flag recording whether input was consumed.

Python `setattr` on this class raises `AttributeError` when the name is
one of the nine read-only `@property` names (they are data descriptors
without a setter); every other name is written to the instance
dictionary.  This is modelled by `setattrPy` returning `Except`.
-/

namespace HugegraphPrompt

/-- One log record emitted through the `log` collaborator. -/
inductive LogEvent where
  | info (msg : String)
  | warning (msg : String)
deriving DecidableEq

/-- The parsed content of the backing YAML file: an ordered mapping from
field name to string value, as produced by `yaml.safe_load`. -/
abbrev YamlData : Type := List (String × String)

/-- State of a `BasePromptConfig` instance: the `language` attribute plus
the rest of the instance dictionary (attribute name to value, in
insertion order). -/
structure PromptStore where
  language : String
  attrs : List (String × String)
deriving DecidableEq

/-- The class constant `PROMPT_KEYS`: the nine prompt keys.  Each of them
is also the name of a read-only derived `@property` on the class. -/
def PROMPT_KEYS : List String :=
  ["graph_schema", "extract_graph_prompt", "default_question",
   "custom_rerank_info", "answer_prompt", "keywords_extract_prompt",
   "text2gql_graph_schema", "gremlin_generate_prompt", "doc_input_text"]

/-- The 18 per-language field names `<key>_en` / `<key>_zh`, in the order
`__init__` creates them. -/
def FIELD_NAMES : List String :=
  PROMPT_KEYS.foldr (fun k acc => (k ++ "_en") :: (k ++ "_zh") :: acc) []

/-- Insert-or-update on the instance dictionary, with Python `dict`
semantics: an existing binding is updated in place, a new key is
appended at the end. -/
def dictSet : List (String × String) → String → String → List (String × String)
  | [], k, v => [(k, v)]
  | (k', v') :: rest, k, v =>
      if k' == k then (k, v) :: rest else (k', v') :: dictSet rest k v

/-- Python `getattr(self, name, dflt)` restricted to the instance
dictionary: the attribute value when present, the default otherwise. -/
def getattrD (s : PromptStore) (name dflt : String) : String :=
  match List.lookup name s.attrs with
  | some v => v
  | none => dflt

/-- Python `setattr(self, k, v)`: raises `AttributeError` when `k` is one
of the nine read-only property names; assigning `language` updates that
attribute; any other name is written into the instance dictionary. -/
def setattrPy (s : PromptStore) (k v : String) : Except String PromptStore :=
  if PROMPT_KEYS.contains k then
    Except.error ("AttributeError: can not set attribute " ++ k)
  else if k == "language" then
    Except.ok { s with language := v }
  else
    Except.ok { s with attrs := dictSet s.attrs k v }

/-- The store after the attribute-initialising part of `__init__`
(`self.language = en`, then `<key>_en = ''` and `<key>_zh = ''` for
each prompt key, in order) and before `ensure_yaml_file_exists` runs.
This is the freshly constructed store with file I/O stubbed out. -/
def initStore : PromptStore :=
  PROMPT_KEYS.foldl
    (fun s k =>
      { s with attrs := dictSet (dictSet s.attrs (k ++ "_en") "") (k ++ "_zh") "" })
    { language := "en", attrs := [] }

/-- The warning text of `set_language` for an unsupported language. -/
def warnMsg (lang : String) : String :=
  "Unsupported language " ++ lang ++ " specified. Defaulting to en."

/-- `set_language(lang)`: accepts `en` / `zh`; anything else logs a
warning and forces `en`.  Returns the new store and the emitted logs. -/
def set_language (s : PromptStore) (lang : String) : PromptStore × List LogEvent :=
  if lang == "en" || lang == "zh" then
    ({ s with language := lang }, [])
  else
    ({ s with language := "en" }, [LogEvent.warning (warnMsg lang)])

/-- The common body of the nine read-only properties (`graph_schema`,
`extract_graph_prompt`, ...), parameterised by the prompt key: with
language `zh`, `getattr(self, key_zh, getattr(self, key_en, ''))`;
otherwise `getattr(self, key_en, '')`. -/
def getPrompt (s : PromptStore) (key : String) : String :=
  if s.language == "zh" then
    getattrD s (key ++ "_zh") (getattrD s (key ++ "_en") "")
  else
    getattrD s (key ++ "_en") ""

/-- `save_to_yaml`: builds the `prompts_to_save` dictionary by reading
each of the 18 fields with a default-valued `getattr` (default `""`), in
the fixed key order, and writes it to the backing file.  The returned
mapping is the new file content. -/
def save_to_yaml (s : PromptStore) : YamlData :=
  PROMPT_KEYS.foldl
    (fun d k =>
      dictSet (dictSet d (k ++ "_en") (getattrD s (k ++ "_en") ""))
              (k ++ "_zh") (getattrD s (k ++ "_zh") ""))
    []

/-- Applies `setattr(self, key, value)` for each item of the loaded YAML
mapping, in file order, propagating an `AttributeError`. -/
def applyAll (s : PromptStore) : YamlData → Except String PromptStore
  | [] => Except.ok s
  | (k, v) :: rest =>
      match setattrPy s k v with
      | Except.ok s' => applyAll s' rest
      | Except.error e => Except.error e

/-- Python `str.lower` on the operator answer (ASCII case folding,
character by character), written structurally so it reduces. -/
def pyLower (s : String) : String :=
  String.mk (s.data.map Char.toLower)

/-- Log text of the overwrite-confirmation prompt in `generate_yaml_file`. -/
def overwritePromptMsg : String :=
  "config_prompt.yaml already exists, do you want to override with the default configuration? (y/n)"

/-- Log text emitted by `generate_yaml_file` when it creates the file. -/
def generateCreateMsg : String :=
  "Prompt file config_prompt.yaml does not exist, create it."

/-- `generate_yaml_file`, with the operator's `input()` answer passed as
an argument.  Returns the resulting file, the emitted logs, and whether
`input()` was consumed.  When the file exists: log the confirmation
prompt, read the answer, return (file untouched) unless the lowercased
answer equals `y`, in which case `save_to_yaml` overwrites it.  When
the file does not exist: write it unconditionally and log creation. -/
def generate_yaml_file (s : PromptStore) (file : Option YamlData) (answer : String) :
    Option YamlData × List LogEvent × Bool :=
  match file with
  | some d =>
      if pyLower answer != "y" then
        (some d, [LogEvent.info overwritePromptMsg], true)
      else
        (some (save_to_yaml s), [LogEvent.info overwritePromptMsg], true)
  | none =>
      (some (save_to_yaml s), [LogEvent.info generateCreateMsg], false)

/-- Log text emitted by `ensure_yaml_file_exists` when the file loads. -/
def loadMsg : String :=
  "Loading prompt file config_prompt.yaml successfully."

/-- Log text emitted by `ensure_yaml_file_exists` after creating a
missing file. -/
def ensureCreateMsg : String :=
  "Prompt file <path>/config_prompt.yaml does not exist, create it."

/-- `ensure_yaml_file_exists` (Load): when the backing file exists, log
the load and — unless the parsed data is falsy (`None` / empty) — apply
every item onto the store with `setattr`; when it does not exist, call
`generate_yaml_file` (which, the file still being absent, writes the
current values unconditionally) and log creation.  Returns the updated
store, the file, and the logs, or the propagated `AttributeError`. -/
def ensure_yaml_file_exists (s : PromptStore) (file : Option YamlData) (answer : String) :
    Except String (PromptStore × Option YamlData × List LogEvent) :=
  match file with
  | some d =>
      if d.isEmpty then
        Except.ok (s, some d, [LogEvent.info loadMsg])
      else
        match applyAll s d with
        | Except.ok s' => Except.ok (s', some d, [LogEvent.info loadMsg])
        | Except.error e => Except.error e
  | none =>
      let (file', logs, _) := generate_yaml_file s none answer
      Except.ok (s, file', logs ++ [LogEvent.info ensureCreateMsg])

/-- Full `__init__`: attribute initialisation followed by
`ensure_yaml_file_exists` against the given backing file. -/
def constructBasePromptConfig (file : Option YamlData) (answer : String) :
    Except String (PromptStore × Option YamlData × List LogEvent) :=
  ensure_yaml_file_exists initStore file answer

/-- `update_yaml_file`: unconditional `save_to_yaml` plus a log line. -/
def update_yaml_file (s : PromptStore) : Option YamlData × List LogEvent :=
  (some (save_to_yaml s),
   [LogEvent.info "Prompt file config_prompt.yaml updated successfully."])

/-- All 18 per-language fields are present on the store. -/
def fieldsOk (s : PromptStore) : Prop :=
  ∀ f ∈ FIELD_NAMES, (List.lookup f s.attrs).isSome

instance (s : PromptStore) : Decidable (fieldsOk s) := by
  unfold fieldsOk
  infer_instance

instance {ε α : Type} [DecidableEq ε] [DecidableEq α] : DecidableEq (Except ε α) := fun a b =>
  match a, b with
  | Except.error e, Except.error e' =>
      decidable_of_iff (e = e') ⟨congrArg Except.error, Except.error.inj⟩
  | Except.error _, Except.ok _ => Decidable.isFalse (fun h => Except.noConfusion h)
  | Except.ok _, Except.error _ => Decidable.isFalse (fun h => Except.noConfusion h)
  | Except.ok x, Except.ok y =>
      decidable_of_iff (x = y) ⟨congrArg Except.ok, Except.ok.inj⟩

/-- A store whose 18 per-language fields hold the values assigned by `v`,
as obtained by setting every field of a fresh store. -/
def mkStore (v : String → String) : PromptStore :=
  { language := "en", attrs := FIELD_NAMES.map (fun f => (f, v f)) }

/-- A fully initialised store where `graph_schema_en` was set to `A`
(every other field keeps its empty-string default, so in particular
`graph_schema_zh` is present and holds the empty string) and the active
language was then switched to `zh`. -/
def c1Store : PromptStore :=
  (set_language { initStore with attrs := dictSet initStore.attrs "graph_schema_en" "A" } "zh").1

/-- A store state in which every per-language field is absent from the
instance dictionary (construction stubbed before field initialisation). -/
def emptyAttrsStore : PromptStore :=
  { language := "zh", attrs := [] }


/-! ### General lemmas about the instance dictionary and Load -/

theorem lookup_cons (k' v' : String) (tl : List (String × String)) (f : String) :
    List.lookup f ((k', v') :: tl) = if f == k' then some v' else List.lookup f tl := by
  simp only [List.lookup]
  cases h : f == k' <;> simp [h]

theorem lookup_dictSet (d : List (String × String)) (k v f : String) :
    List.lookup f (dictSet d k v) = if f == k then some v else List.lookup f d := by
  induction d with
  | nil =>
      simp only [dictSet]
      rw [lookup_cons]
  | cons hd tl ih =>
      obtain ⟨k', v'⟩ := hd
      simp only [dictSet]
      by_cases hk : k' = k
      · subst hk
        rw [if_pos (by simp), lookup_cons, lookup_cons]
        by_cases hf : f = k' <;> simp [beq_iff_eq, hf]
      · rw [if_neg (by simp [beq_iff_eq, hk]), lookup_cons, lookup_cons, ih]
        by_cases hf : f = k'
        · subst hf
          have hfk : f ≠ k := hk
          simp [beq_iff_eq, hfk]
        · simp [beq_iff_eq, hf]

theorem setattrPy_not_prop (s : PromptStore) (k v : String)
    (h1 : k ∉ PROMPT_KEYS) (h2 : k ≠ "language") :
    setattrPy s k v = Except.ok { s with attrs := dictSet s.attrs k v } := by
  simp [setattrPy, h1, beq_iff_eq, h2]

theorem setattrPy_ok_attrs (s : PromptStore) (k v : String) (s₁ : PromptStore)
    (h : setattrPy s k v = Except.ok s₁) :
    s₁.attrs = dictSet s.attrs k v ∨ s₁.attrs = s.attrs := by
  unfold setattrPy at h
  split at h
  · exact absurd h (by simp)
  · split at h
    · simp only [Except.ok.injEq] at h
      right
      rw [← h]
    · simp only [Except.ok.injEq] at h
      left
      rw [← h]

theorem field_keys_ok :
    ∀ f ∈ FIELD_NAMES, f ∉ PROMPT_KEYS ∧ f ≠ "language" := by
  decide

theorem applyAll_ok (d : YamlData) :
    ∀ s : PromptStore, (∀ p ∈ d, p.1 ∉ PROMPT_KEYS ∧ p.1 ≠ "language") →
    ∃ s', applyAll s d = Except.ok s' := by
  induction d with
  | nil => exact fun s _ => ⟨s, rfl⟩
  | cons hd tl ih =>
      intro s hkeys
      obtain ⟨k, v⟩ := hd
      have hk := hkeys (k, v) (by simp)
      rw [applyAll, setattrPy_not_prop s k v hk.1 hk.2]
      exact ih _ (fun p hp => hkeys p (List.mem_cons_of_mem _ hp))

theorem applyAll_lookup_not_mem (d : YamlData) :
    ∀ (s s' : PromptStore) (f : String), applyAll s d = Except.ok s' →
    f ∉ d.map Prod.fst →
    List.lookup f s'.attrs = List.lookup f s.attrs := by
  induction d with
  | nil =>
      intro s s' f h _
      simp only [applyAll, Except.ok.injEq] at h
      rw [h]
  | cons hd tl ih =>
      intro s s' f h hmem
      obtain ⟨k, v⟩ := hd
      simp only [List.map, List.mem_cons, not_or] at hmem
      cases hs : setattrPy s k v with
      | error e =>
          rw [applyAll, hs] at h
          exact absurd h (by simp)
      | ok s₁ =>
          rw [applyAll, hs] at h
          rw [ih s₁ s' f h hmem.2]
          rcases setattrPy_ok_attrs s k v s₁ hs with ha | ha
          · rw [ha, lookup_dictSet, if_neg (by simp [beq_iff_eq, hmem.1])]
          · rw [ha]

theorem applyAll_lookup_mem (d : YamlData) :
    ∀ (s s' : PromptStore),
    (∀ p ∈ d, p.1 ∉ PROMPT_KEYS ∧ p.1 ≠ "language") →
    (d.map Prod.fst).Nodup →
    applyAll s d = Except.ok s' →
    ∀ p ∈ d, List.lookup p.1 s'.attrs = some p.2 := by
  induction d with
  | nil =>
      intro s s' _ _ _ p hp
      exact absurd hp (by simp)
  | cons hd tl ih =>
      intro s s' hkeys hnd h p hp
      obtain ⟨k, v⟩ := hd
      have hk := hkeys (k, v) (by simp)
      rw [applyAll, setattrPy_not_prop s k v hk.1 hk.2] at h
      simp only [List.map, List.nodup_cons] at hnd
      rcases List.mem_cons.mp hp with hpk | hptl
      · subst hpk
        rw [applyAll_lookup_not_mem tl _ s' k h hnd.1]
        rw [lookup_dictSet, if_pos (by simp)]
      · exact ih _ s' (fun q hq => hkeys q (List.mem_cons_of_mem _ hq)) hnd.2 h p hptl

theorem setattrPy_preserves_isSome (s : PromptStore) (k v : String) (s₁ : PromptStore)
    (h : setattrPy s k v = Except.ok s₁) (f : String)
    (hf : (List.lookup f s.attrs).isSome) : (List.lookup f s₁.attrs).isSome := by
  rcases setattrPy_ok_attrs s k v s₁ h with ha | ha
  · rw [ha, lookup_dictSet]
    by_cases hfk : f == k <;> simp [hfk, hf]
  · rw [ha]; exact hf

theorem applyAll_preserves_fieldsOk (d : YamlData) :
    ∀ (s s' : PromptStore), fieldsOk s → applyAll s d = Except.ok s' → fieldsOk s' := by
  induction d with
  | nil =>
      intro s s' hs h
      simp only [applyAll, Except.ok.injEq] at h
      rw [← h]; exact hs
  | cons hd tl ih =>
      intro s s' hs h
      obtain ⟨k, v⟩ := hd
      cases hset : setattrPy s k v with
      | error e =>
          rw [applyAll, hset] at h
          exact absurd h (by simp)
      | ok s₁ =>
          rw [applyAll, hset] at h
          exact ih s₁ s' (fun f hf => setattrPy_preserves_isSome s k v s₁ hset f (hs f hf)) h

theorem save_mkStore (v : String → String) :
    save_to_yaml (mkStore v) = FIELD_NAMES.map (fun f => (f, v f)) := by
  simp [mkStore, FIELD_NAMES, PROMPT_KEYS, getattrD, lookup_cons, save_to_yaml, dictSet]


/-! ### Claim theorems -/

/-- C1, counterexample to the claim as stated: in a fully initialised
store where `graph_schema_en` holds the non-empty string `A`, the
`graph_schema_zh` field is present and holds the empty string, and the
active language is `zh`, the accessor returns the empty string — not the
English value `A`.  The default-valued `getattr` only falls back when
the attribute is absent, and after construction it is always present. -/
theorem c1_counterexample :
    c1Store.language = "zh" ∧
    List.lookup "graph_schema_en" c1Store.attrs = some "A" ∧
    List.lookup "graph_schema_zh" c1Store.attrs = some "" ∧
    getPrompt c1Store "graph_schema" = "" ∧
    ¬ getPrompt c1Store "graph_schema" = "A" := by
  decide

/-- C1 (amended): with active language `zh`, when the chinese field of a
key is absent from the store (not merely empty) and the english field
holds `a`, the accessor falls back and returns `a`. -/
theorem c1_amended_fallback (s : PromptStore) (key a : String)
    (hlang : s.language = "zh")
    (hzh : List.lookup (key ++ "_zh") s.attrs = none)
    (hen : List.lookup (key ++ "_en") s.attrs = some a) :
    getPrompt s key = a := by
  simp [getPrompt, getattrD, hlang, hzh, hen]

/-- C1 witness: the amended fallback at a concrete store. -/
theorem c1_amended_witness :
    getPrompt { language := "zh", attrs := [("graph_schema_en", "A")] } "graph_schema" = "A" :=
  c1_amended_fallback { language := "zh", attrs := [("graph_schema_en", "A")] }
    "graph_schema" "A" (by decide) (by decide) (by decide)

/-- C2: Load behaviour of `ensure_yaml_file_exists` on a fresh store.
When the backing file exists and its keys are among the 18 per-language
field names, every field found in the file is applied onto the store
(overwriting the empty-string defaults), fields absent from the file
keep their prior value, and an empty file overwrites nothing; when the
file does not exist, the in-memory defaults are written to a new file
and its creation is logged. -/
theorem c2_load (d : YamlData) (answer : String)
    (hkeys : ∀ p ∈ d, p.1 ∈ FIELD_NAMES)
    (hnd : (d.map Prod.fst).Nodup) :
    (∃ s', ensure_yaml_file_exists initStore (some d) answer =
        Except.ok (s', some d, [LogEvent.info loadMsg]) ∧
      (∀ p ∈ d, List.lookup p.1 s'.attrs = some p.2) ∧
      (∀ f, f ∉ d.map Prod.fst →
        List.lookup f s'.attrs = List.lookup f initStore.attrs)) ∧
    (ensure_yaml_file_exists initStore (some []) answer =
      Except.ok (initStore, some [], [LogEvent.info loadMsg])) ∧
    (ensure_yaml_file_exists initStore none answer =
      Except.ok (initStore, some (save_to_yaml initStore),
        [LogEvent.info generateCreateMsg, LogEvent.info ensureCreateMsg])) := by
  refine ⟨?_, rfl, rfl⟩
  cases d with
  | nil =>
      exact ⟨initStore, rfl, by simp, fun f _ => rfl⟩
  | cons hd tl =>
      have hkeys' : ∀ p ∈ hd :: tl, p.1 ∉ PROMPT_KEYS ∧ p.1 ≠ "language" :=
        fun p hp => field_keys_ok p.1 (hkeys p hp)
      obtain ⟨s', happ⟩ := applyAll_ok (hd :: tl) initStore hkeys'
      refine ⟨s', ?_, applyAll_lookup_mem _ _ _ hkeys' hnd happ,
        fun f hf => applyAll_lookup_not_mem _ _ _ f happ hf⟩
      simp only [ensure_yaml_file_exists, List.isEmpty_cons, Bool.false_eq_true,
        if_false, happ]

/-- C2 witness: loading a one-entry file sets that field and leaves the
other 17 fields at their defaults. -/
theorem c2_witness :
    (∃ s', ensure_yaml_file_exists initStore (some [("graph_schema_en", "X")]) "" =
        Except.ok (s', some [("graph_schema_en", "X")], [LogEvent.info loadMsg]) ∧
      (∀ p ∈ [("graph_schema_en", "X")], List.lookup p.1 s'.attrs = some p.2) ∧
      (∀ f, f ∉ [("graph_schema_en", "X")].map Prod.fst →
        List.lookup f s'.attrs = List.lookup f initStore.attrs)) ∧
    (ensure_yaml_file_exists initStore (some []) "" =
      Except.ok (initStore, some [], [LogEvent.info loadMsg])) ∧
    (ensure_yaml_file_exists initStore none "" =
      Except.ok (initStore, some (save_to_yaml initStore),
        [LogEvent.info generateCreateMsg, LogEvent.info ensureCreateMsg])) :=
  c2_load [("graph_schema_en", "X")] "" (by decide) (by decide)

/-- C3: serialization round-trip.  For any assignment `v` of string
values (non-ASCII included) to the 18 per-language fields, saving the
store and constructing a fresh instance against the saved file yields a
store identical to the original — same language and same 18 fields. -/
theorem c3_round_trip (v : String → String) :
    constructBasePromptConfig (some (save_to_yaml (mkStore v))) "" =
      Except.ok (mkStore v, some (save_to_yaml (mkStore v)), [LogEvent.info loadMsg]) := by
  rw [save_mkStore]
  simp [constructBasePromptConfig, ensure_yaml_file_exists, applyAll, setattrPy, initStore,
    dictSet, mkStore, FIELD_NAMES, PROMPT_KEYS, List.contains, List.elem]

/-- C3 witness: the round-trip at a concrete non-ASCII assignment. -/
theorem c3_round_trip_witness :
    constructBasePromptConfig (some (save_to_yaml (mkStore (fun f => f ++ "：中文值")))) "" =
      Except.ok (mkStore (fun f => f ++ "：中文值"),
        some (save_to_yaml (mkStore (fun f => f ++ "：中文值"))), [LogEvent.info loadMsg]) :=
  c3_round_trip (fun f => f ++ "：中文值")

/-- C4: `set_language` is total (the embedding returns, never raises);
a supported code (`en` / `zh`) becomes the active language with no log,
and any other value sets the active language to `en` and logs a
warning. -/
theorem c4_set_language_total (s : PromptStore) (lang : String) :
    (lang = "en" ∨ lang = "zh" →
      set_language s lang = ({ s with language := lang }, [])) ∧
    (¬(lang = "en" ∨ lang = "zh") →
      set_language s lang =
        ({ s with language := "en" }, [LogEvent.warning (warnMsg lang)])) := by
  constructor
  · rintro (h | h) <;> subst h <;> simp [set_language]
  · intro h
    push_neg at h
    simp [set_language, beq_iff_eq, h.1, h.2]

/-- C4 witness: `set_language` on the unsupported code `fr`. -/
theorem c4_set_language_witness :
    set_language initStore "fr" =
      ({ initStore with language := "en" }, [LogEvent.warning (warnMsg "fr")]) :=
  (c4_set_language_total initStore "fr").2 (by decide)

/-- C5: `generate_yaml_file` with an existing backing file prompts for
confirmation (input consumed, flag `true`) and, for every answer whose
lowercase form is not the affirmative `y`, leaves the file untouched;
with no backing file it writes unconditionally without prompting
(flag `false`).  The embedding is a total function: no error. -/
theorem c5_generate (s : PromptStore) (d : YamlData) (answer : String) :
    (pyLower answer ≠ "y" →
      generate_yaml_file s (some d) answer =
        (some d, [LogEvent.info overwritePromptMsg], true)) ∧
    generate_yaml_file s none answer =
      (some (save_to_yaml s), [LogEvent.info generateCreateMsg], false) := by
  constructor
  · intro h
    simp [generate_yaml_file, h]
  · rfl

/-- C5 witness: declining with `n` keeps the existing file. -/
theorem c5_generate_witness :
    generate_yaml_file initStore (some [("graph_schema_en", "keep")]) "n" =
      (some [("graph_schema_en", "keep")], [LogEvent.info overwritePromptMsg], true) :=
  (c5_generate initStore [("graph_schema_en", "keep")] "n").1 (by decide)

/-- C6: the freshly constructed store (file I/O stubbed out) has every
one of the 18 per-language fields present and equal to the empty string,
and its active language is `en`. -/
theorem c6_fresh_store_defaults :
    initStore.language = "en" ∧
    (FIELD_NAMES.all (fun f => List.lookup f initStore.attrs == some "")) = true := by
  decide

/-- C7: every per-language field exists on the store from construction
onward: the invariant holds for the stubbed fresh store, is preserved by
`set_language` and by a successful Load, and holds for the store
produced by full construction.  `graph_schema`-style accessors,
`save_to_yaml`, `generate_yaml_file` and `update_yaml_file` only read
the store in the source, so they preserve it trivially. -/
theorem c7_fields_invariant :
    fieldsOk initStore ∧
    (∀ (s : PromptStore) (lang : String), fieldsOk s → fieldsOk (set_language s lang).1) ∧
    (∀ (s s' : PromptStore) (file file' : Option YamlData) (answer : String)
        (logs : List LogEvent), fieldsOk s →
      ensure_yaml_file_exists s file answer = Except.ok (s', file', logs) →
      fieldsOk s') ∧
    (∀ (file file' : Option YamlData) (answer : String) (s' : PromptStore)
        (logs : List LogEvent),
      constructBasePromptConfig file answer = Except.ok (s', file', logs) →
      fieldsOk s') := by
  have hinit : fieldsOk initStore := by decide
  have hens : ∀ (s s' : PromptStore) (file file' : Option YamlData) (answer : String)
      (logs : List LogEvent), fieldsOk s →
      ensure_yaml_file_exists s file answer = Except.ok (s', file', logs) →
      fieldsOk s' := by
    intro s s' file file' answer logs hs h
    cases file with
    | none =>
        simp only [ensure_yaml_file_exists, Except.ok.injEq, Prod.mk.injEq] at h
        rw [← h.1]
        exact hs
    | some d =>
        cases hde : d.isEmpty with
        | true =>
            simp only [ensure_yaml_file_exists, hde, if_true, Except.ok.injEq,
              Prod.mk.injEq] at h
            rw [← h.1]
            exact hs
        | false =>
            cases happ : applyAll s d with
            | error e =>
                simp only [ensure_yaml_file_exists, hde, Bool.false_eq_true, if_false,
                  happ] at h
                exact absurd h (by simp)
            | ok s₁ =>
                simp only [ensure_yaml_file_exists, hde, Bool.false_eq_true, if_false,
                  happ, Except.ok.injEq, Prod.mk.injEq] at h
                rw [← h.1]
                exact applyAll_preserves_fieldsOk d s s₁ hs happ
  refine ⟨hinit, ?_, hens, ?_⟩
  · intro s lang hs
    unfold set_language
    split
    · exact hs
    · exact hs
  · intro file file' answer s' logs h
    exact hens initStore s' file file' answer logs hinit h

/-- C7 witness: the invariant after construction against a missing file
and after a language switch. -/
theorem c7_fields_invariant_witness :
    fieldsOk (set_language initStore "zh").1 :=
  c7_fields_invariant.2.1 initStore "zh" (by decide)

/-- C8: the per-key accessor and Save never hit a missing-key error:
for any store state, even one where the fields of a key are absent, the
accessor reads through default-valued lookups and returns the empty
string, and `save_to_yaml` still produces an entry for all 18 field
names, each holding the default-valued read of the store. -/
theorem c8_default_lookups (s : PromptStore) (key : String)
    (hen : List.lookup (key ++ "_en") s.attrs = none)
    (hzh : List.lookup (key ++ "_zh") s.attrs = none) :
    getPrompt s key = "" ∧
    (save_to_yaml s).map Prod.fst = FIELD_NAMES ∧
    (∀ k ∈ PROMPT_KEYS,
      List.lookup (k ++ "_en") (save_to_yaml s) = some (getattrD s (k ++ "_en") "") ∧
      List.lookup (k ++ "_zh") (save_to_yaml s) = some (getattrD s (k ++ "_zh") "")) := by
  refine ⟨?_, ?_, ?_⟩
  · by_cases hl : s.language == "zh" <;> simp [getPrompt, getattrD, hen, hzh, hl]
  · simp [save_to_yaml, PROMPT_KEYS, FIELD_NAMES, dictSet]
  · intro k hk
    fin_cases hk <;>
      constructor <;>
        simp [save_to_yaml, PROMPT_KEYS, dictSet, lookup_cons]

/-- C8 witness: a store with an empty instance dictionary. -/
theorem c8_default_lookups_witness :
    getPrompt emptyAttrsStore "graph_schema" = "" ∧
    (save_to_yaml emptyAttrsStore).map Prod.fst = FIELD_NAMES ∧
    (∀ k ∈ PROMPT_KEYS,
      List.lookup (k ++ "_en") (save_to_yaml emptyAttrsStore) =
        some (getattrD emptyAttrsStore (k ++ "_en") "") ∧
      List.lookup (k ++ "_zh") (save_to_yaml emptyAttrsStore) =
        some (getattrD emptyAttrsStore (k ++ "_zh") "")) :=
  c8_default_lookups emptyAttrsStore "graph_schema" (by decide) (by decide)

/-- C9: Load applies file keys unconditionally: a key outside the 18
known field names is still set onto the store, and a file whose key is
the bare prompt-key name `graph_schema` — a read-only property — makes
Load raise instead of completing, so Load is not total over well-formed
key-value files. -/
theorem c9_load_not_total :
    (∃ s', ensure_yaml_file_exists initStore (some [("my_extra_key", "v")]) "" =
        Except.ok (s', some [("my_extra_key", "v")], [LogEvent.info loadMsg]) ∧
      List.lookup "my_extra_key" s'.attrs = some "v") ∧
    (∃ e, ensure_yaml_file_exists initStore (some [("graph_schema", "boom")]) "" =
      Except.error e) := by
  constructor
  · exact ⟨{ language := "en", attrs := dictSet initStore.attrs "my_extra_key" "v" },
      by decide, by decide⟩
  · exact ⟨_, rfl⟩

/-- C10: frame property of `set_language`: for every store and every
input, supported or not, the instance dictionary — and with it all 18
per-language fields — is unchanged; only the active language moves. -/
theorem c10_set_language_frame (s : PromptStore) (lang : String) :
    (set_language s lang).1.attrs = s.attrs := by
  unfold set_language
  split <;> rfl

/-- C10 witness: the frame property at a concrete call. -/
theorem c10_set_language_frame_witness :
    (set_language c1Store "fr").1.attrs = c1Store.attrs :=
  c10_set_language_frame c1Store "fr"

end HugegraphPrompt
